import Mathlib

/-!
Formal model of the ccslogging repository.

The repository is a Streamlit application that logs protein collision
cross-section (CCS) measurements, extracted from papers, into a CSV file
hosted on GitHub.  The model below is a shallow embedding of the pure logic
of the relevant functions:

* `src/utils/github_utils.py` — `get_existing_data`, `update_csv_in_github`
  (namespace `UtilsGithub` below);
* `src/github_utils.py` — the older variants of the same two functions
  (namespace `GithubUtils` below);
* `src/pages/data_entry.py` — `validate_doi`, `check_doi_exists` and the three
  steps of `show_data_entry_page` (DOI check, per-protein submission, submit
  all), together with `src/data_entry.py` where the same helpers recur.

Calls to the content host (GitHub) are effectful; each such call is modelled
by an explicit outcome parameter, passed to the embedded function in the
order the Python body performs the calls.  Tables are lists of rows; a file's
SHA is an opaque `Nat` token.
-/

namespace CCSLog

/-- Outcome of one `repo.get_contents` call followed by `pd.read_csv`:
either the file's rows plus its SHA token, a 404 (file absent), or any
other failure (network error, malformed CSV, ...). -/
inductive FetchResult (α : Type) where
  | ok (rows : List α) (sha : Nat)
  | notFound
  | err
deriving DecidableEq

/-- Outcome of one `repo.update_file` call.  `conflict` stands for the
host's HTTP 409 response when the supplied SHA no longer matches the
file's current version (another writer committed in between); `err` for
any other failure. -/
inductive UpdateOutcome where
  | ok
  | conflict
  | err
deriving DecidableEq

/-- Outcome of one `repo.create_file` call.  `alreadyExists` stands for
the host's HTTP 422 response when the path already holds a file. -/
inductive CreateOutcome where
  | ok
  | alreadyExists
  | err
deriving DecidableEq

/-- Result the Python functions return to the page: `(True, message)` with
the table that was written, or `(False, message)`. -/
inductive CommitResult (α : Type) where
  | success (table : List α)
  | failure
deriving DecidableEq

namespace UtilsGithub

/-- Embeds `get_existing_data` of `src/utils/github_utils.py` (lines 22-30).
The Python body wraps `repo.get_contents` and `pd.read_csv` in a `try`
whose `except` catches every exception, emits a UI warning only, and
returns an empty `DataFrame`; so a missing file and a failed read both
come back as the empty table, indistinguishable from an empty file. -/
def get_existing_data {α : Type} : FetchResult α → List α
  | FetchResult.ok rows _ => rows
  | FetchResult.notFound => []
  | FetchResult.err => []

/-- Embeds `update_csv_in_github` of `src/utils/github_utils.py` (lines
32-61).  The body: (1) reads the existing table through
`get_existing_data` (outcome `fetch1`); (2) appends `new_data` to it;
(3) in an inner `try`, calls `repo.get_contents` again (outcome `fetch2`)
and `repo.update_file` conditioned on that SHA (outcome `upd`); (4) on any
exception of step 3, falls to a bare `except:` that calls
`repo.create_file` with the same content (outcome `cre`); (5) returns
`(True, ...)` on success, and the outer `except` returns `(False, ...)`.
There is no loop: each host call happens at most once per invocation. -/
def update_csv_in_github {α : Type} (fetch1 fetch2 : FetchResult α)
    (upd : UpdateOutcome) (cre : CreateOutcome) (new_data : List α) :
    CommitResult α :=
  let existing_df := get_existing_data fetch1
  let updated_df := existing_df ++ new_data
  match fetch2 with
  | FetchResult.ok _ _ =>
    match upd with
    | UpdateOutcome.ok => CommitResult.success updated_df
    | _ =>
      match cre with
      | CreateOutcome.ok => CommitResult.success updated_df
      | _ => CommitResult.failure
  | _ =>
    match cre with
    | CreateOutcome.ok => CommitResult.success updated_df
    | _ => CommitResult.failure

end UtilsGithub

namespace GithubUtils

/-- Embeds `get_existing_data` of `src/github_utils.py` (lines 27-40): a 404
yields an empty table, any other failure yields `None` (here `none`). -/
def get_existing_data {α : Type} : FetchResult α → Option (List α)
  | FetchResult.ok rows _ => some rows
  | FetchResult.notFound => some []
  | FetchResult.err => none

/-- Embeds `update_csv_in_github` of `src/github_utils.py` (lines 42-83).
The body reads the file once (outcome `fetch`); on success it appends
`data_df` and performs one conditional `repo.update_file` (outcome `upd`),
whose exceptions are re-raised to the outer handler, which returns
`(False, ...)`; on a 404 it calls `repo.create_file` with only `data_df`
(outcome `cre`); any other read failure reaches the outer handler.  As in
the `utils` variant, no host call is ever retried. -/
def update_csv_in_github {α : Type} (fetch : FetchResult α)
    (upd : UpdateOutcome) (cre : CreateOutcome) (data_df : List α) :
    CommitResult α :=
  match fetch with
  | FetchResult.ok rows _ =>
    match upd with
    | UpdateOutcome.ok => CommitResult.success (rows ++ data_df)
    | _ => CommitResult.failure
  | FetchResult.notFound =>
    match cre with
    | CreateOutcome.ok => CommitResult.success data_df
    | _ => CommitResult.failure
  | FetchResult.err => CommitResult.failure

end GithubUtils

/-! ## DOI validation (`validate_doi` of `src/pages/data_entry.py` lines
14-17 and `src/data_entry.py` lines 9-13)

The Python function is
`re.match(r'^10\.\d{4,9}/[-._;()/:A-Z0-9]+$', doi, re.IGNORECASE) is not None`.
The embedding below reproduces the regex engine's behaviour on this pattern,
restricted to ASCII digit/letter semantics for `\d` and `A-Z`:

* the literal prefix `10.`;
* `\d{4,9}`: since a digit can never match the following `/`, the engine
  accepts exactly when the maximal leading digit run after the prefix has
  length 4 to 9 and is followed by `/`;
* `[-._;()/:A-Z0-9]+$` with `re.IGNORECASE`: one or more characters of the
  class (lower-case letters included), where Python's `$` matches at the end
  of the string or just before one final newline character.
-/

/-- Membership in the character class `[-._;()/:A-Z0-9]` under
`re.IGNORECASE` (ASCII letters). -/
def isDoiTailChar (c : Char) : Bool :=
  c == '-' || c == '.' || c == '_' || c == ';' || c == '(' || c == ')' ||
    c == '/' || c == ':' || c.isDigit || ('A' ≤ c && c ≤ 'Z') ||
    ('a' ≤ c && c ≤ 'z')

/-- Consumes the maximal leading digit run: returns its length and the
remaining characters, as a regex engine consumes `\d*` greedily. -/
def scanDigits : List Char → Nat × List Char
  | [] => (0, [])
  | c :: cs =>
    if c.isDigit then
      let nr := scanDigits cs
      (nr.1 + 1, nr.2)
    else (0, c :: cs)

/-- Matches `[-._;()/:A-Z0-9]*$` (the rest of the class run followed by the
anchor) against the remaining characters: `$` succeeds at the end of the
string, or just before a newline that is the string's final character. -/
def scanTailRest : List Char → Bool
  | [] => true
  | [c] => (c == '\n') || isDoiTailChar c
  | c :: c' :: cs => isDoiTailChar c && scanTailRest (c' :: cs)

/-- Matches `[-._;()/:A-Z0-9]+$`: at least one class character, then the
rest of the run and the anchor. -/
def scanTail : List Char → Bool
  | [] => false
  | c :: cs => isDoiTailChar c && scanTailRest cs

/-- Matches `\d{4,9}/[-._;()/:A-Z0-9]+$` against the characters after the
literal `10.` prefix: since no digit equals `/`, the bounded greedy
quantifier succeeds exactly when the maximal digit run has length 4 to 9
and the character after it is `/`. -/
def validateAfterDot (rest : List Char) : Bool :=
  if 4 ≤ (scanDigits rest).1 ∧ (scanDigits rest).1 ≤ 9 then
    match (scanDigits rest).2 with
    | x :: tail => x == '/' && scanTail tail
    | [] => false
  else false

/-- Matches the whole pattern against a character list: the literal `10.`
prefix, then `validateAfterDot`. -/
def validateBody : List Char → Bool
  | a :: b :: c :: rest =>
    a == '1' && (b == '0' && (c == '.' && validateAfterDot rest))
  | _ => false

/-- Embeds `validate_doi`: `re.match` of the anchored DOI pattern with
`re.IGNORECASE`, `True` exactly when the match succeeds. -/
def validate_doi (doi : String) : Bool :=
  validateBody doi.data

/-- Modelled from the spec's words, for comparison with `validate_doi`:
membership in the DOI syntax `10.<4-9 digits>/<allowed punctuation or
alphanumerics>+`, case-insensitively, with no anchor subtlety — the digit
run (length 4 to 9) is the maximal digit prefix, the `/` follows it, and
every remaining character (at least one) lies in the allowed class. -/
def specAfterDot (rest : List Char) : Bool :=
  if 4 ≤ (rest.takeWhile Char.isDigit).length ∧
      (rest.takeWhile Char.isDigit).length ≤ 9 then
    match rest.dropWhile Char.isDigit with
    | x :: tail => x == '/' && (!tail.isEmpty && tail.all isDoiTailChar)
    | [] => false
  else false

/-- Modelled from the spec's words: the whole DOI syntax over a character
list (prefix `10.`, then `specAfterDot`). -/
def specBody : List Char → Bool
  | a :: b :: c :: rest =>
    a == '1' && (b == '0' && (c == '.' && specAfterDot rest))
  | _ => false

/-- Modelled from the spec's words: a string of the DOI syntax
`10.<4-9 digits>/<allowed punctuation/alnum>+` (case-insensitive). -/
def doi_spec_pattern (s : String) : Bool :=
  specBody s.data

/-! ## Data-entry page state (`src/pages/data_entry.py`) -/

/-- Paper metadata as `get_paper_details` assembles it (lines 25-78): the
dictionary with `paper_title`, `authors`, `journal`, `publication_year`
and `doi`.  The CrossRef lookup itself is an external call; a value of
this type is the outcome handed to the DOI-check step. -/
structure PaperDetails where
  paper_title : String
  authors : String
  journal : String
  publication_year : Option Nat
  doi : String

/-- Raw widget values of the per-protein form (lines 123-159): every text
input as a string (empty when left blank), the two mass inputs as numbers
(0 when left at the default), the subunit count and the charge/CCS list. -/
structure RawProteinForm where
  protein_name : String
  instrument : String
  ims_type : String
  drift_gas : String
  polarity : String
  uniprot_id : String
  pdb_id : String
  protein_sequence : String
  sequence_mass_value : Rat
  measured_mass_value : Rat
  native_measurement : String
  subunit_count : Nat
  oligomer_type : String
  ccs_data : List (Nat × Rat)
  additional_notes : String

/-- One entry of `st.session_state.protein_data` as the submission handler
builds it (lines 166-182): optional fields are `None` exactly when the raw
value is falsy (empty string, or mass not greater than zero). -/
structure ProteinEntry where
  protein_name : String
  instrument : String
  ims_type : String
  drift_gas : String
  polarity : String
  uniprot : Option String
  pdb : Option String
  sequence : Option String
  sequence_mass : Option Rat
  measured_mass : Option Rat
  native_measurement : String
  subunit_count : Nat
  oligomer_type : Option String
  ccs_data : List (Nat × Rat)
  additional_notes : String

/-- Embeds the `protein_entry` dictionary construction of lines 166-182:
`x if x else None` on the string fields, `v if v > 0 else None` on the two
masses, and the remaining fields taken verbatim.  Note that
`oligomer_type` depends only on the raw string's emptiness, not on
`subunit_count`. -/
def buildProteinEntry (r : RawProteinForm) : ProteinEntry :=
  { protein_name := r.protein_name
    instrument := r.instrument
    ims_type := r.ims_type
    drift_gas := r.drift_gas
    polarity := r.polarity
    uniprot := if r.uniprot_id = "" then none else some r.uniprot_id
    pdb := if r.pdb_id = "" then none else some r.pdb_id
    sequence := if r.protein_sequence = "" then none else some r.protein_sequence
    sequence_mass :=
      if 0 < r.sequence_mass_value then some r.sequence_mass_value else none
    measured_mass :=
      if 0 < r.measured_mass_value then some r.measured_mass_value else none
    native_measurement := r.native_measurement
    subunit_count := r.subunit_count
    oligomer_type := if r.oligomer_type = "" then none else some r.oligomer_type
    ccs_data := r.ccs_data
    additional_notes := r.additional_notes }

/-- One row of the `DataFrame` built at submission time (lines 206-210):
the dictionary merge of the paper details with one protein entry.  The two
dictionaries share no key, so the merge keeps every field of both; the
charge/CCS pairs stay embedded as one list-valued field. -/
structure CombinedRow where
  paper_title : String
  authors : String
  journal : String
  publication_year : Option Nat
  doi : String
  protein_name : String
  instrument : String
  ims_type : String
  drift_gas : String
  polarity : String
  uniprot : Option String
  pdb : Option String
  sequence : Option String
  sequence_mass : Option Rat
  measured_mass : Option Rat
  native_measurement : String
  subunit_count : Nat
  oligomer_type : Option String
  ccs_data : List (Nat × Rat)
  additional_notes : String

/-- Embeds one element of the list comprehension of lines 206-209, the
dictionary merge of the paper details with one protein entry. -/
def combineRow (paper : PaperDetails) (p : ProteinEntry) : CombinedRow :=
  { paper_title := paper.paper_title
    authors := paper.authors
    journal := paper.journal
    publication_year := paper.publication_year
    doi := paper.doi
    protein_name := p.protein_name
    instrument := p.instrument
    ims_type := p.ims_type
    drift_gas := p.drift_gas
    polarity := p.polarity
    uniprot := p.uniprot
    pdb := p.pdb
    sequence := p.sequence
    sequence_mass := p.sequence_mass
    measured_mass := p.measured_mass
    native_measurement := p.native_measurement
    subunit_count := p.subunit_count
    oligomer_type := p.oligomer_type
    ccs_data := p.ccs_data
    additional_notes := p.additional_notes }

/-- Embeds `all_proteins` of lines 206-209: the rows handed to
`update_csv_in_github`, one per protein entry of the batch. -/
def materializeRows (paper : PaperDetails) (batch : List ProteinEntry) :
    List CombinedRow :=
  batch.map (combineRow paper)

/-- Total number of declared (charge state, CCS value) pairs across a
batch. -/
def totalCcsPairs (batch : List ProteinEntry) : Nat :=
  (batch.map (fun p => p.ccs_data.length)).sum

/-- One row of the persisted CSV as the duplicate check sees it: its `doi`
column and the rest of the row. -/
structure StoredRow where
  doi : String
  rest : String
deriving DecidableEq

/-- Embeds `check_doi_exists` of `src/pages/data_entry.py` (lines 19-23)
and `src/data_entry.py` (lines 15-19), whose bodies are identical:
`False` when `existing_data` is `None` or empty, else membership of the
DOI in the `doi` column. -/
def check_doi_exists (existing_data : Option (List StoredRow))
    (doi : String) : Bool :=
  match existing_data with
  | none => false
  | some rows => if rows.isEmpty then false else rows.any (fun r => r.doi == doi)

/-- Embeds the call-site filter `existing_data[existing_data['doi'] == doi]`
(`src/data_entry.py` line 42, `src/pages/data_entry.py` line 107): the rows
whose `doi` column equals the queried DOI. -/
def matching_entries (rows : List StoredRow) (doi : String) : List StoredRow :=
  rows.filter (fun r => r.doi == doi)

/-- The slice of `st.session_state` that the data-entry page reads and
writes: the DOI accepted by the check, the paper details fetched for it,
the flag gating the protein form, and the accumulated batch. -/
structure EntrySession where
  new_doi : Option String
  paper_details : Option PaperDetails
  show_full_form : Bool
  protein_data : List ProteinEntry

/-- Session state before any DOI check: the form hidden and the batch
empty, as `app.py` initializes `show_full_form` to `False`. -/
def blankSession : EntrySession :=
  { new_doi := none
    paper_details := none
    show_full_form := false
    protein_data := [] }

/-- Message the DOI-check step surfaces: the invalid-format error, the
already-exists warning, or the proceed success message. -/
inductive DoiCheckMsg where
  | invalidFormat
  | duplicateWarning
  | proceed
deriving DecidableEq

/-- Embeds the DOI-check branch of `show_data_entry_page`
(`src/pages/data_entry.py` lines 100-113): an invalid format surfaces an
error and changes nothing; an existing DOI surfaces a warning (displaying
the matching rows) and changes nothing; otherwise the step stores the DOI
and paper details, opens the full form and resets the batch.  `details` is
the outcome of the external `get_paper_details` call. -/
def doiCheckStep (existing_data : Option (List StoredRow)) (doi : String)
    (details : PaperDetails) (s : EntrySession) : EntrySession × DoiCheckMsg :=
  if !validate_doi doi then (s, DoiCheckMsg.invalidFormat)
  else if check_doi_exists existing_data doi then (s, DoiCheckMsg.duplicateWarning)
  else
    ({ s with
        new_doi := some doi
        paper_details := some details
        show_full_form := true
        protein_data := [] },
      DoiCheckMsg.proceed)

/-- Embeds the per-protein submission handler (lines 165-183):
`st.session_state.protein_data.append(protein_entry)` — an unconditional
append of the entry built from the raw form. -/
def submitProteinStep (s : EntrySession) (raw : RawProteinForm) : EntrySession :=
  { s with protein_data := s.protein_data ++ [buildProteinEntry raw] }

/-- Outcome of the submit-all handler: commit succeeded (with the table
written), commit returned an error, the repository was inaccessible, or
authentication failed. -/
inductive SubmitOutcome where
  | committed (table : List CombinedRow)
  | commitFailed
  | repoFailed
  | authFailed

/-- Placeholder paper details; at submission time `paper_details` is always
set, because the submit button is only reachable once the DOI-check step
has stored them. -/
def blankPaper : PaperDetails :=
  { paper_title := ""
    authors := ""
    journal := ""
    publication_year := none
    doi := "" }

/-- Embeds the submit-all handler (`src/pages/data_entry.py` lines 205-227):
materializes the batch into rows, authenticates (`authOk`), resolves the
repository (`repoOk`), and calls `update_csv_in_github` of
`src/utils/github_utils.py`; on `(True, ...)` it clears the batch and hides
the form, on `(False, ...)` or any earlier failure it surfaces an error and
leaves the session untouched. -/
def submitAllStep (authOk repoOk : Bool) (f1 f2 : FetchResult CombinedRow)
    (upd : UpdateOutcome) (cre : CreateOutcome) (s : EntrySession) :
    EntrySession × SubmitOutcome :=
  let df := materializeRows (s.paper_details.getD blankPaper) s.protein_data
  if authOk then
    if repoOk then
      match UtilsGithub.update_csv_in_github f1 f2 upd cre df with
      | CommitResult.success t =>
        ({ s with protein_data := [], show_full_form := false },
          SubmitOutcome.committed t)
      | CommitResult.failure => (s, SubmitOutcome.commitFailed)
    else (s, SubmitOutcome.repoFailed)
  else (s, SubmitOutcome.authFailed)

/-! ## Concrete sample data used by witnesses and counterexamples -/

/-- Sample paper details for the DOI `10.1021/abc123` of the spec's
scenarios. -/
def samplePaper : PaperDetails :=
  { paper_title := "Sample Paper"
    authors := "A. Author"
    journal := "J. Am. Soc."
    publication_year := some 2021
    doi := "10.1021/abc123" }

/-- Raw form values for ProteinA with two charge/CCS pairs, the batch of
the spec's third concrete scenario. -/
def rawProteinA : RawProteinForm :=
  { protein_name := "ProteinA"
    instrument := "Waters Synapt"
    ims_type := "TWIMS"
    drift_gas := "Nitrogen"
    polarity := "Positive"
    uniprot_id := ""
    pdb_id := ""
    protein_sequence := ""
    sequence_mass_value := 0
    measured_mass_value := 0
    native_measurement := "Yes"
    subunit_count := 1
    oligomer_type := ""
    ccs_data := [(1, 1500.25), (2, 1600.10)]
    additional_notes := "" }

/-- A second raw form reusing the name ProteinA with a different
instrument. -/
def rawProteinA2 : RawProteinForm :=
  { rawProteinA with instrument := "Bruker timsTOF", ccs_data := [(3, 1700.00)] }

/-- Raw form values for ProteinB with one charge/CCS pair. -/
def rawProteinB : RawProteinForm :=
  { rawProteinA with protein_name := "ProteinB", ccs_data := [(1, 900.0)] }

/-- Raw form with one subunit and a non-empty oligomer type, the
combination the spec says the builder must force to null. -/
def rawOligomer : RawProteinForm :=
  { rawProteinA with subunit_count := 1, oligomer_type := "Homo-oligomer" }

/-- A persisted table holding one row for the DOI `10.1021/abc123`. -/
def sampleRows : List StoredRow :=
  [{ doi := "10.1021/abc123", rest := "ProteinA,1,1500.25" }]

/-- A session mid-entry: DOI accepted, form open, one protein in the
batch. -/
def sampleSession : EntrySession :=
  { new_doi := some "10.1021/abc123"
    paper_details := some samplePaper
    show_full_form := true
    protein_data := [buildProteinEntry rawProteinA] }

/-! ## Theorems -/

/-- Claim C1 (counterexample): with the persisted table at `[0]`, a
conditioned write that the host rejects with a token mismatch
(`UpdateOutcome.conflict`) makes `update_csv_in_github` fall to
`create_file`, which fails because the file exists, and the function
returns failure — it does not re-fetch and retry the conditioned write, so
the result is not the success on `[0] ++ [1]` that a retry against the
latest snapshot would produce. -/
theorem commit_conflict_no_retry_cex :
    UtilsGithub.update_csv_in_github (FetchResult.ok [0] 1) (FetchResult.ok [0] 1)
        UpdateOutcome.conflict CreateOutcome.alreadyExists [1] = CommitResult.failure
    ∧ CommitResult.failure ≠ CommitResult.success ([0] ++ [1] : List Nat) :=
  ⟨rfl, by decide⟩

/-- Claim C1 (amended): a version-token mismatch during commit is never
retried.  In both variants of `update_csv_in_github` a single conditioned
write is attempted; on a mismatch the `utils` variant falls through to a
`create_file` that fails on the existing file, the root variant re-raises,
and both return an explicit failure result; the caller's batch is not
discarded, because the submit handler leaves the session unchanged on a
failed commit. -/
theorem commit_conflict_no_retry :
    (∀ (α : Type) (f1 f2 : FetchResult α) (new_data : List α),
      UtilsGithub.update_csv_in_github f1 f2 UpdateOutcome.conflict
        CreateOutcome.alreadyExists new_data = CommitResult.failure)
    ∧ (∀ (α : Type) (rows : List α) (sha : Nat) (cre : CreateOutcome)
        (data_df : List α),
      GithubUtils.update_csv_in_github (FetchResult.ok rows sha)
        UpdateOutcome.conflict cre data_df = CommitResult.failure)
    ∧ (∀ (authOk repoOk : Bool) (f1 f2 : FetchResult CombinedRow)
        (s : EntrySession),
      (submitAllStep authOk repoOk f1 f2 UpdateOutcome.conflict
        CreateOutcome.alreadyExists s).1 = s) := by
  refine ⟨?_, ?_, ?_⟩
  · intro α f1 f2 new_data
    cases f2 <;> rfl
  · intro α rows sha cre data_df
    rfl
  · intro authOk repoOk f1 f2 s
    cases authOk <;> cases repoOk <;> cases f2 <;> rfl

/-- Claim C2: with the persisted table holding row `0`, a transient
(non-404) failure of the read inside `get_existing_data` is swallowed into
an empty table; the subsequent fetch and conditioned write succeed, so the
commit reports success while the table written, `[1]`, no longer contains
the persisted row `0` — an error path that silently loses persisted
rows. -/
theorem swallowed_read_loses_rows :
    UtilsGithub.update_csv_in_github (FetchResult.err : FetchResult Nat)
        (FetchResult.ok [0] 5) UpdateOutcome.ok CreateOutcome.ok [1] =
      CommitResult.success [1]
    ∧ (0 : Nat) ∉ ([1] : List Nat) :=
  ⟨rfl, by decide⟩

/-- Claim C3 (counterexample): the batch with ProteinA declaring two
charge/CCS pairs and ProteinB declaring one — three pairs in total —
materializes into two rows, not three: the comprehension produces one row
per protein entry with the pair list embedded, not one row per pair. -/
theorem rows_one_per_record_cex :
    totalCcsPairs [buildProteinEntry rawProteinA, buildProteinEntry rawProteinB] = 3
    ∧ (materializeRows samplePaper
        [buildProteinEntry rawProteinA, buildProteinEntry rawProteinB]).length = 2
    ∧ (2 : Nat) ≠ 3 :=
  ⟨rfl, rfl, by decide⟩

/-- Claim C3 (amended): the rows handed to the store are the dictionary
merge of the paper fields with each protein entry, one row per entry of
the batch — a batch of r records produces exactly r rows, each embedding
that record's whole (charge state, CCS value) list. -/
theorem rows_one_per_record (paper : PaperDetails) (batch : List ProteinEntry) :
    (materializeRows paper batch).length = batch.length
    ∧ (materializeRows paper batch).map (fun row => row.ccs_data) =
        batch.map (fun p => p.ccs_data) := by
  constructor
  · simp [materializeRows]
  · simp [materializeRows, List.map_map]
    intro a _
    rfl

/-- Claim C5: whenever either variant of `update_csv_in_github` succeeds
after reading a base table `t`, the table written is exactly `t` followed
by the new rows: it has `t.length + new_data.length` rows, its first
`t.length` rows are `t` unchanged and in order, and the remainder is
`new_data`. -/
theorem commit_success_appends (α : Type) (t new_data tbl : List α) (sha : Nat)
    (f2 : FetchResult α) (upd : UpdateOutcome) (cre : CreateOutcome) :
    (UtilsGithub.update_csv_in_github (FetchResult.ok t sha) f2 upd cre new_data =
        CommitResult.success tbl →
      tbl = t ++ new_data ∧ tbl.length = t.length + new_data.length
        ∧ tbl.take t.length = t ∧ tbl.drop t.length = new_data)
    ∧ (GithubUtils.update_csv_in_github (FetchResult.ok t sha) upd cre new_data =
        CommitResult.success tbl → tbl = t ++ new_data) := by
  constructor
  · intro h
    have ht : tbl = t ++ new_data := by
      cases f2 <;> cases upd <;> cases cre <;>
        simp [UtilsGithub.update_csv_in_github, UtilsGithub.get_existing_data] at h <;>
        (try exact h.symm)
    subst ht
    refine ⟨rfl, ?_, ?_, ?_⟩ <;> simp
  · intro h
    cases upd <;>
      simp [GithubUtils.update_csv_in_github] at h <;>
      (try exact h.symm)

/-- Claim C5 (witness): committing `[3]` against base table `[1, 2]`
writes `[1, 2, 3]`. -/
theorem commit_success_appends_wit :
    ([1, 2, 3] : List Nat) = [1, 2] ++ [3] :=
  ((commit_success_appends Nat [1, 2] [3] [1, 2, 3] 7 (FetchResult.ok [1, 2] 7)
      UpdateOutcome.ok CreateOutcome.ok).1 rfl).1

/-- Claim C6: the submit-all handler leaves the session — in particular
the batch — unchanged whenever the commit fails, the repository is
inaccessible or authentication fails, and clears the batch exactly when
the commit succeeds. -/
theorem commit_result_batch_policy (authOk repoOk : Bool)
    (f1 f2 : FetchResult CombinedRow) (upd : UpdateOutcome) (cre : CreateOutcome)
    (s : EntrySession) :
    ((submitAllStep authOk repoOk f1 f2 upd cre s).2 = SubmitOutcome.commitFailed →
      (submitAllStep authOk repoOk f1 f2 upd cre s).1 = s)
    ∧ ((submitAllStep authOk repoOk f1 f2 upd cre s).2 = SubmitOutcome.repoFailed →
      (submitAllStep authOk repoOk f1 f2 upd cre s).1 = s)
    ∧ ((submitAllStep authOk repoOk f1 f2 upd cre s).2 = SubmitOutcome.authFailed →
      (submitAllStep authOk repoOk f1 f2 upd cre s).1 = s)
    ∧ (∀ tbl,
        (submitAllStep authOk repoOk f1 f2 upd cre s).2 = SubmitOutcome.committed tbl →
      (submitAllStep authOk repoOk f1 f2 upd cre s).1.protein_data = []) := by
  cases authOk <;> cases repoOk <;> simp [submitAllStep] <;> split <;> simp_all

/-- Claim C6 (witness): a commit attempt that fails on a token mismatch
leaves the sample mid-entry session unchanged. -/
theorem commit_result_batch_policy_wit :
    (submitAllStep true true (FetchResult.ok [] 0) (FetchResult.ok [] 0)
      UpdateOutcome.conflict CreateOutcome.alreadyExists sampleSession).1 =
      sampleSession :=
  (commit_result_batch_policy true true (FetchResult.ok [] 0) (FetchResult.ok [] 0)
    UpdateOutcome.conflict CreateOutcome.alreadyExists sampleSession).1 rfl

/-- Claim C7 (counterexample): submitting two protein forms that both carry
the name ProteinA leaves two entries named ProteinA in the batch — the
handler appends, it does not overwrite by name. -/
theorem record_submission_appends_cex :
    ((submitProteinStep (submitProteinStep blankSession rawProteinA)
        rawProteinA2).protein_data.filter
          (fun p => p.protein_name == "ProteinA")).length = 2
    ∧ (2 : Nat) ≠ 1 :=
  ⟨rfl, by decide⟩

/-- Claim C7 (amended): every record submission appends the built entry to
the batch unconditionally; earlier entries — among them any with the same
`protein_name` — remain in the batch, so duplicate names accumulate. -/
theorem record_submission_appends (s : EntrySession) (raw : RawProteinForm) :
    (submitProteinStep s raw).protein_data =
        s.protein_data ++ [buildProteinEntry raw]
    ∧ ∀ p, p ∈ s.protein_data → p ∈ (submitProteinStep s raw).protein_data := by
  refine ⟨rfl, ?_⟩
  intro p hp
  simp [submitProteinStep]
  exact Or.inl hp

/-- Claim C10 (counterexample): the raw form with `subunit_count = 1` and
oligomer type "Homo-oligomer" builds an entry whose stored `oligomer_type`
is `some "Homo-oligomer"`, not `none`, although the subunit count is not
greater than 1. -/
theorem oligomer_type_not_forced_null :
    rawOligomer.subunit_count = 1
    ∧ ¬ 1 < rawOligomer.subunit_count
    ∧ (buildProteinEntry rawOligomer).oligomer_type = some "Homo-oligomer" :=
  ⟨rfl, by decide, rfl⟩

/-- Claim C10 (amended): the stored `oligomer_type` is null exactly when
the raw oligomer-type string is empty, independently of the declared
`subunit_count`, which is stored verbatim. -/
theorem oligomer_type_from_raw (r : RawProteinForm) :
    ((buildProteinEntry r).oligomer_type = none ↔ r.oligomer_type = "")
    ∧ (buildProteinEntry r).subunit_count = r.subunit_count := by
  constructor
  · by_cases h : r.oligomer_type = "" <;> simp [buildProteinEntry, h]
  · rfl

/-- Claim C4 (counterexample): with the sample table already holding the
valid DOI `10.1021/abc123`, the DOI-check step surfaces the duplicate
warning and leaves the session unchanged — `show_full_form` stays `false`
and no DOI is stored, so the user cannot proceed to the data-entry form
for that DOI. -/
theorem duplicate_doi_blocks_entry_cex :
    validate_doi "10.1021/abc123" = true
    ∧ check_doi_exists (some sampleRows) "10.1021/abc123" = true
    ∧ (doiCheckStep (some sampleRows) "10.1021/abc123" samplePaper
        blankSession).1.show_full_form = false
    ∧ (doiCheckStep (some sampleRows) "10.1021/abc123" samplePaper
        blankSession).1.new_doi = none :=
  ⟨by decide, by decide, rfl, rfl⟩

/-- Claim C4 (amended): the duplicate check blocks continued entry: on a
well-formed DOI already present in the table, the DOI-check step surfaces
the duplicate warning and returns the session unchanged — in particular it
does not store the DOI or open the data-entry form; only the
not-yet-present branch does. -/
theorem duplicate_doi_blocks_entry (existing_data : Option (List StoredRow))
    (doi : String) (details : PaperDetails) (s : EntrySession)
    (hval : validate_doi doi = true)
    (hdup : check_doi_exists existing_data doi = true) :
    doiCheckStep existing_data doi details s = (s, DoiCheckMsg.duplicateWarning) := by
  simp [doiCheckStep, hval, hdup]

/-- Claim C4 (witness): the blocking behaviour at the sample table and the
DOI `10.1021/abc123`. -/
theorem duplicate_doi_blocks_entry_wit :
    doiCheckStep (some sampleRows) "10.1021/abc123" samplePaper blankSession =
      (blankSession, DoiCheckMsg.duplicateWarning) :=
  duplicate_doi_blocks_entry (some sampleRows) "10.1021/abc123" samplePaper
    blankSession (by decide) (by decide)

/-- Claim C9: the duplicate-existence check as the workflow realizes it —
`check_doi_exists` paired with the call-site filter `matching_entries` —
returns `false` (and the filter is empty) on a `None` table, an empty
table or an absent DOI, returns `true` when some row carries the DOI, and
the filtered rows are exactly the subset of the table whose `doi` field
equals the queried DOI. -/
theorem duplicate_check_exact (rows : List StoredRow) (doi : String) :
    check_doi_exists none doi = false
    ∧ ((∀ r ∈ rows, r.doi ≠ doi) →
        check_doi_exists (some rows) doi = false ∧ matching_entries rows doi = [])
    ∧ ((∃ r ∈ rows, r.doi = doi) → check_doi_exists (some rows) doi = true)
    ∧ (∀ r, r ∈ matching_entries rows doi ↔ r ∈ rows ∧ r.doi = doi) := by
  refine ⟨rfl, ?_, ?_, ?_⟩
  · intro h
    constructor
    · cases rows with
      | nil => rfl
      | cons a as =>
        simp [check_doi_exists, List.any_eq_true]
        exact ⟨h a (List.mem_cons_self a as),
          fun x hx => h x (List.mem_cons_of_mem a hx)⟩
    · simp only [matching_entries, List.filter_eq_nil_iff]
      intro r hr
      simpa using h r hr
  · rintro ⟨r, hr, he⟩
    cases rows with
    | nil => cases hr
    | cons a as =>
      simp [check_doi_exists, List.any_eq_true]
      rcases List.mem_cons.mp hr with hra | hmem
      · exact Or.inl (hra ▸ he)
      · exact Or.inr ⟨r, hmem, he⟩
  · intro r
    simp [matching_entries, List.mem_filter]

/-- Claim C9 (witness): on the sample table, checking the present DOI
returns true and the absent DOI returns false with an empty filter. -/
theorem duplicate_check_exact_wit :
    check_doi_exists (some sampleRows) "10.1021/abc123" = true
    ∧ check_doi_exists (some sampleRows) "10.9999/zzz" = false
    ∧ matching_entries sampleRows "10.9999/zzz" = [] :=
  ⟨(duplicate_check_exact sampleRows "10.1021/abc123").2.2.1
      ⟨{ doi := "10.1021/abc123", rest := "ProteinA,1,1500.25" }, by decide, rfl⟩,
    ((duplicate_check_exact sampleRows "10.9999/zzz").2.1 (by decide)).1,
    ((duplicate_check_exact sampleRows "10.9999/zzz").2.1 (by decide)).2⟩

/-- Helper: `scanDigits` computes the maximal digit prefix and the
remainder, as `takeWhile`/`dropWhile` do. -/
theorem scanDigits_eq (cs : List Char) :
    scanDigits cs = ((cs.takeWhile Char.isDigit).length, cs.dropWhile Char.isDigit) := by
  induction cs with
  | nil => rfl
  | cons c cs ih =>
    by_cases h : c.isDigit
    · simp [scanDigits, h, ih, List.takeWhile_cons_of_pos, List.dropWhile_cons_of_pos]
    · simp [scanDigits, h, List.takeWhile_cons_of_neg, List.dropWhile_cons_of_neg]

/-- Helper: first component of `scanDigits`. -/
theorem scanDigits_fst (cs : List Char) :
    (scanDigits cs).1 = (cs.takeWhile Char.isDigit).length := by
  rw [scanDigits_eq]

/-- Helper: second component of `scanDigits`. -/
theorem scanDigits_snd (cs : List Char) :
    (scanDigits cs).2 = cs.dropWhile Char.isDigit := by
  rw [scanDigits_eq]

/-- Helper: every character of a `takeWhile` prefix satisfies the
predicate. -/
theorem takeWhile_all (p : Char → Bool) (cs : List Char) :
    ∀ c ∈ cs.takeWhile p, p c = true := by
  induction cs with
  | nil => simp
  | cons c cs ih =>
    by_cases h : p c
    · rw [List.takeWhile_cons_of_pos h]
      intro d hd
      rcases List.mem_cons.mp hd with rfl | hd'
      · exact h
      · exact ih d hd'
    · rw [List.takeWhile_cons_of_neg h]
      simp

/-- Helper: `takeWhile` and `dropWhile` on an all-satisfying prefix
followed by a failing head. -/
theorem takeWhile_split (p : Char → Bool) (ds : List Char) (x : Char)
    (t : List Char) (hds : ∀ c ∈ ds, p c = true) (hx : p x = false) :
    (ds ++ x :: t).takeWhile p = ds ∧ (ds ++ x :: t).dropWhile p = x :: t := by
  induction ds with
  | nil =>
    constructor
    · simpa using List.takeWhile_cons_of_neg (p := p) (l := t) (by simp [hx])
    · simpa using List.dropWhile_cons_of_neg (p := p) (l := t) (by simp [hx])
  | cons d ds ih =>
    have hd : p d = true := hds d (List.mem_cons_self d ds)
    have hrest : ∀ c ∈ ds, p c = true :=
      fun c hc => hds c (List.mem_cons_of_mem d hc)
    constructor
    · simp [List.takeWhile_cons_of_pos hd, (ih hrest).1]
    · simp [List.dropWhile_cons_of_pos hd, (ih hrest).2]

/-- Helper: a run of class characters satisfies the tail-and-anchor
matcher. -/
theorem scanTailRest_of_all (cs : List Char)
    (h : ∀ c ∈ cs, isDoiTailChar c = true) : scanTailRest cs = true := by
  induction cs with
  | nil => rfl
  | cons c cs ih =>
    have hc : isDoiTailChar c = true := h c (List.mem_cons_self c cs)
    have hrest : ∀ d ∈ cs, isDoiTailChar d = true :=
      fun d hd => h d (List.mem_cons_of_mem c hd)
    cases cs with
    | nil => simp [scanTailRest, hc]
    | cons c' cs' => simp [scanTailRest, hc, ih hrest]

/-- Helper: a run of class characters followed by one final newline also
satisfies the tail-and-anchor matcher (the `$` consumes nothing and
matches just before the final newline). -/
theorem scanTailRest_concat_nl (cs : List Char)
    (h : ∀ c ∈ cs, isDoiTailChar c = true) :
    scanTailRest (cs ++ ['\n']) = true := by
  induction cs with
  | nil => rfl
  | cons c cs ih =>
    have hc : isDoiTailChar c = true := h c (List.mem_cons_self c cs)
    have hrest : ∀ d ∈ cs, isDoiTailChar d = true :=
      fun d hd => h d (List.mem_cons_of_mem c hd)
    cases cs with
    | nil => simp [scanTailRest, hc]
    | cons c' cs' =>
      simpa [scanTailRest, hc] using ih hrest

/-- Helper: the tail-and-anchor matcher accepts only a run of class
characters, optionally closed by one final newline. -/
theorem scanTailRest_elim (cs : List Char) (h : scanTailRest cs = true) :
    (∀ c ∈ cs, isDoiTailChar c = true) ∨
      ∃ t, cs = t ++ ['\n'] ∧ ∀ c ∈ t, isDoiTailChar c = true := by
  induction cs with
  | nil => exact Or.inl (by simp)
  | cons c cs ih =>
    cases cs with
    | nil =>
      have h' : c = '\n' ∨ isDoiTailChar c = true := by
        simpa [scanTailRest] using h
      rcases h' with hnl | hcl
      · exact Or.inr ⟨[], by simp [hnl], by simp⟩
      · exact Or.inl (by simp [hcl])
    | cons c' cs' =>
      have h' : isDoiTailChar c = true ∧ scanTailRest (c' :: cs') = true := by
        simpa [scanTailRest] using h
      obtain ⟨hc, hrest⟩ := h'
      rcases ih hrest with hall | ⟨t, ht, hta⟩
      · refine Or.inl ?_
        intro d hd
        rcases List.mem_cons.mp hd with rfl | hd'
        · exact hc
        · exact hall d hd'
      · refine Or.inr ⟨c :: t, by simp [ht], ?_⟩
        intro d hd
        rcases List.mem_cons.mp hd with rfl | hd'
        · exact hc
        · exact hta d hd'

/-- Helper: after the `10.` prefix, the engine matcher accepts exactly the
spec pattern, or the spec pattern followed by one final newline. -/
theorem validateAfterDot_iff (rest : List Char) :
    validateAfterDot rest = true ↔
      (specAfterDot rest = true ∨
        ∃ t, rest = t ++ ['\n'] ∧ specAfterDot t = true) := by
  constructor
  · intro h
    simp only [validateAfterDot, scanDigits_fst, scanDigits_snd] at h
    by_cases hlen : 4 ≤ (rest.takeWhile Char.isDigit).length ∧
        (rest.takeWhile Char.isDigit).length ≤ 9
    · rw [if_pos hlen] at h
      cases hdw : rest.dropWhile Char.isDigit with
      | nil => rw [hdw] at h; simp at h
      | cons x tail =>
        rw [hdw] at h
        have h1 : x = '/' ∧ scanTail tail = true := by simpa using h
        obtain ⟨hx, htail⟩ := h1
        cases tail with
        | nil => simp [scanTail] at htail
        | cons c0 t0 =>
          have h2 : isDoiTailChar c0 = true ∧ scanTailRest t0 = true := by
            simpa [scanTail] using htail
          obtain ⟨hc0, ht0⟩ := h2
          rcases scanTailRest_elim t0 ht0 with hall | ⟨t1, ht1, ht1a⟩
          · left
            simp only [specAfterDot]
            rw [if_pos hlen, hdw]
            simpa [hx, hc0] using hall
          · right
            have hxdig : Char.isDigit x = false := by rw [hx]; decide
            have hsplit := takeWhile_split Char.isDigit
              (rest.takeWhile Char.isDigit) x (c0 :: t1)
              (takeWhile_all Char.isDigit rest) hxdig
            refine ⟨rest.takeWhile Char.isDigit ++ x :: c0 :: t1, ?_, ?_⟩
            · conv_lhs =>
                rw [← List.takeWhile_append_dropWhile (p := Char.isDigit) (l := rest)]
              rw [hdw, ht1]
              simp
            · simp only [specAfterDot]
              rw [hsplit.1, hsplit.2, if_pos hlen]
              simp [hx, hc0]
              exact ht1a
    · rw [if_neg hlen] at h
      simp at h
  · intro h
    rcases h with hspec | ⟨t, hteq, hspec⟩
    · simp only [specAfterDot] at hspec
      by_cases hlen : 4 ≤ (rest.takeWhile Char.isDigit).length ∧
          (rest.takeWhile Char.isDigit).length ≤ 9
      · rw [if_pos hlen] at hspec
        cases hdw : rest.dropWhile Char.isDigit with
        | nil => rw [hdw] at hspec; simp at hspec
        | cons x tail =>
          rw [hdw] at hspec
          obtain ⟨hx, hne, hall⟩ := by simpa using hspec
          cases tail with
          | nil => simp at hne
          | cons c0 t0 =>
            have hc0 : isDoiTailChar c0 = true := hall c0 (List.mem_cons_self c0 t0)
            have ht0all : ∀ d ∈ t0, isDoiTailChar d = true :=
              fun d hd => hall d (List.mem_cons_of_mem c0 hd)
            simp only [validateAfterDot, scanDigits_fst, scanDigits_snd]
            rw [if_pos hlen, hdw]
            simp [hx, scanTail, hc0, scanTailRest_of_all t0 ht0all]
      · rw [if_neg hlen] at hspec
        simp at hspec
    · subst hteq
      simp only [specAfterDot] at hspec
      by_cases hlen : 4 ≤ (t.takeWhile Char.isDigit).length ∧
          (t.takeWhile Char.isDigit).length ≤ 9
      · rw [if_pos hlen] at hspec
        cases hdw : t.dropWhile Char.isDigit with
        | nil => rw [hdw] at hspec; simp at hspec
        | cons x tail =>
          rw [hdw] at hspec
          obtain ⟨hx, hne, hall⟩ := by simpa using hspec
          cases tail with
          | nil => simp at hne
          | cons c0 t0 =>
            have hc0 : isDoiTailChar c0 = true := hall c0 (List.mem_cons_self c0 t0)
            have ht0all : ∀ d ∈ t0, isDoiTailChar d = true :=
              fun d hd => hall d (List.mem_cons_of_mem c0 hd)
            have hxdig : Char.isDigit x = false := by rw [hx]; decide
            have hsplit := takeWhile_split Char.isDigit
              (t.takeWhile Char.isDigit) x (c0 :: (t0 ++ ['\n']))
              (takeWhile_all Char.isDigit t) hxdig
            have hteq2 : t ++ ['\n'] =
                t.takeWhile Char.isDigit ++ x :: c0 :: (t0 ++ ['\n']) := by
              conv_lhs =>
                rw [← List.takeWhile_append_dropWhile (p := Char.isDigit) (l := t)]
              rw [hdw]
              simp
            rw [hteq2]
            simp only [validateAfterDot, scanDigits_fst, scanDigits_snd]
            rw [hsplit.1, hsplit.2, if_pos hlen]
            simp [hx, scanTail, hc0, scanTailRest_concat_nl t0 ht0all]
      · rw [if_neg hlen] at hspec
        simp at hspec

/-- Helper: over whole character lists, the embedded `re.match` accepts
exactly the spec pattern, or the spec pattern followed by one final
newline. -/
theorem validateBody_iff (cs : List Char) :
    validateBody cs = true ↔
      (specBody cs = true ∨ ∃ t, cs = t ++ ['\n'] ∧ specBody t = true) := by
  constructor
  · intro h
    rcases cs with _ | ⟨a, _ | ⟨b, _ | ⟨c, rest⟩⟩⟩
    · simp [validateBody] at h
    · simp [validateBody] at h
    · simp [validateBody] at h
    · obtain ⟨ha, hb, hc, had⟩ := by simpa [validateBody] using h
      rcases (validateAfterDot_iff rest).mp had with hspec | ⟨t, hteq, hspec⟩
      · exact Or.inl (by simp [specBody, ha, hb, hc, hspec])
      · exact Or.inr ⟨a :: b :: c :: t, by simp [hteq],
          by simp [specBody, ha, hb, hc, hspec]⟩
  · intro h
    rcases h with hspec | ⟨t, hteq, hspec⟩
    · rcases cs with _ | ⟨a, _ | ⟨b, _ | ⟨c, rest⟩⟩⟩
      · simp [specBody] at hspec
      · simp [specBody] at hspec
      · simp [specBody] at hspec
      · obtain ⟨ha, hb, hc, had⟩ := by simpa [specBody] using hspec
        simp only [validateBody, ha, hb, hc]
        simpa using (validateAfterDot_iff rest).mpr (Or.inl had)
    · subst hteq
      rcases t with _ | ⟨a, _ | ⟨b, _ | ⟨c, rest⟩⟩⟩
      · simp [specBody] at hspec
      · simp [specBody] at hspec
      · simp [specBody] at hspec
      · obtain ⟨ha, hb, hc, had⟩ := by simpa [specBody] using hspec
        simp only [List.cons_append, validateBody, ha, hb, hc]
        simpa using (validateAfterDot_iff (rest ++ ['\n'])).mpr
          (Or.inr ⟨rest, rfl, had⟩)

/-- Claim C8 (counterexample): `validate_doi` accepts
`"10.1234/abc\n"`, a string that does not match the DOI syntax
`10.<4-9 digits>/<allowed punctuation/alnum>+` — the trailing newline is
outside the allowed class, but Python's `$` anchor matches just before a
final newline — so `validate_doi` does not return true exactly on the
strings of the syntax. -/
theorem validate_doi_trailing_newline :
    validate_doi "10.1234/abc\n" = true
    ∧ doi_spec_pattern "10.1234/abc\n" = false :=
  ⟨by decide, by decide⟩

/-- Claim C8 (amended): `validate_doi` is a pure total boolean function
that returns true exactly for the strings of the DOI syntax
`10.<4-9 digits>/<allowed punctuation/alnum>+` (case-insensitively),
optionally followed by one final newline character (an artifact of
Python's `$` anchor); for malformed strings (missing slash, non-numeric
prefix, empty string) it returns false. -/
theorem validate_doi_characterization :
    (∀ s : String, doi_spec_pattern s = true → validate_doi s = true)
    ∧ (∀ t : List Char, doi_spec_pattern (String.mk t) = true →
        validate_doi (String.mk (t ++ ['\n'])) = true)
    ∧ (∀ s : String, validate_doi s = true →
        doi_spec_pattern s = true ∨
          ∃ t, s.data = t ++ ['\n'] ∧ doi_spec_pattern (String.mk t) = true)
    ∧ validate_doi "" = false
    ∧ validate_doi "10.1234" = false
    ∧ validate_doi "ab.1234/xyz" = false := by
  refine ⟨?_, ?_, ?_, by decide, by decide, by decide⟩
  · intro s h
    exact (validateBody_iff s.data).mpr (Or.inl h)
  · intro t h
    exact (validateBody_iff (t ++ ['\n'])).mpr (Or.inr ⟨t, rfl, h⟩)
  · intro s h
    exact (validateBody_iff s.data).mp h

/-- Claim C8 (witness): the characterization applied at the well-formed
DOI `10.1021/abc123`. -/
theorem validate_doi_characterization_wit :
    validate_doi "10.1021/abc123" = true :=
  validate_doi_characterization.1 "10.1021/abc123" (by decide)

end CCSLog
